import Mathlib

/-!
# osrs-launcher: the authentication state machine

A shallow embedding of `auth/api.go`, `auth/oauth.go` and the consent and session stages of
`cmd/auth.go`.

* Go strings are Lean strings; a Go `error` is its message, and a method's
  returned error is `Option String` (`none` is Go's `nil`).
* A method with a pointer receiver `a *JagexAccountAuth` becomes a function
  from the record before the call to the record after it, paired with the
  returned error.
* The network is an input: what `cli.Do(req)` hands back is an argument of
  the embedded method (`Except String Response`: a transport error or a
  response).  A response body is represented by what `encoding/json` decodes
  out of it for each of the Go types the methods decode into.
* A run-time panic (a failed type assertion) is an explicit outcome.
-/

namespace OsrsLauncher

/-! ## Data model -/

/-- Dynamically typed value (`interface{}`) stored in the extra fields of a token response:
a string, or a value of another Go type, of which only the type name matters here. -/
inductive GoValue where
  | str (s : String)
  | other (typeName : String)
  deriving DecidableEq, Repr

/-- The `oauth2.Token` bearer-token set; `Expiry` is an instant in seconds with `0` for the
zero time, `raw` holds the extra fields of the token response. -/
structure Token where
  AccessToken : String
  TokenType : String
  RefreshToken : String
  Expiry : Int
  raw : List (String × GoValue)
  deriving DecidableEq, Repr

/-- Method `Token.Extra(key)`: the extra field stored under `key`, `none` for Go's `nil`. -/
def Token.Extra (t : Token) (key : String) : Option GoValue :=
  t.raw.lookup key

/-- The `JagexCharacter` record of `api.go`. -/
structure JagexCharacter where
  AccountID : String
  DisplayName : String
  UserHash : String
  deriving DecidableEq, Repr

/-- The `JagexAccountAuth` credential record of `oauth.go`. -/
structure JagexAccountAuth where
  Token : Token
  IDToken : String
  GameIDToken : String
  Session : String
  Characters : List JagexCharacter
  deriving DecidableEq, Repr

/-- The `jagexError` structured error body of `api.go`. -/
structure jagexError where
  TraceID : String
  SpanID : String
  Status : Int
  Code : String
  Message : String
  ID : String
  deriving DecidableEq, Repr

/-- The `sessionResponse` body of `api.go`. -/
structure sessionResponse where
  SessionID : String
  deriving DecidableEq, Repr

/-- An HTTP response as the methods observe it: the status code, and the body through the
three decodings performed on it.  `jError` is the value of the `jagexError` variable after
`Decode(&jError)` (whose error the code discards, so a body that does not decode leaves the
fields it did not fill at their zero value); `session` and `accts` are the results of
`Decode(&session)` and `Decode(&accts)`, with the decoder's error message on failure. -/
structure Response where
  StatusCode : Int
  jError : jagexError
  session : Except String sessionResponse
  accts : Except String (List JagexCharacter)

/-- Go's `http.StatusOK`. -/
def StatusOK : Int := 200

/-- Go's `http.StatusUnauthorized`. -/
def StatusUnauthorized : Int := 401

/-! ## Game session negotiation and character listing (`api.go`) -/

/-- Method `JagexAccountAuth.Sessions`: `sent` is the result of `cli.Do(req)` for the POST carrying
`a.GameIDToken`. -/
def Sessions (a : JagexAccountAuth) (sent : Except String Response) :
    JagexAccountAuth × Option String :=
  match sent with
  | .error err => (a, some ("fetch rsn: " ++ err))
  | .ok resp =>
    if resp.StatusCode ≠ StatusOK then
      let jError := resp.jError
      let a := if jError.Code = "ID_TOKEN_ALREADY_USED" then { a with GameIDToken := "" } else a
      (a, some ("fetch session: " ++ ("status code: " ++ toString resp.StatusCode)))
    else
      -- Always delete the now used id token
      let a := { a with GameIDToken := "" }
      match resp.session with
      | .error err => (a, some ("decoding session: " ++ err))
      | .ok session =>
        if session.SessionID = "" then
          (a, some "empty session id")
        else
          ({ a with Session := session.SessionID }, none)

/-- Method `JagexAccountAuth.Accounts`: `sent` is the result of `cli.Do(req)` for the GET bearing
`a.Session`; it is not consulted when the session is empty. -/
def Accounts (a : JagexAccountAuth) (sent : Except String Response) :
    JagexAccountAuth × Option String :=
  if a.Session = "" then
    (a, some "empty session, cannot fetch accounts")
  else
    match sent with
    | .error err => (a, some ("fetch characters: " ++ err))
    | .ok resp =>
      if resp.StatusCode = StatusUnauthorized then
        ({ a with Session := "" },
          some "session token invalid, deleting, and you must reauthenticate")
      else if resp.StatusCode ≠ StatusOK then
        let jError := resp.jError
        ({ a with Session := "" },
          some ("fetching characters failed (status " ++ toString resp.StatusCode ++
            "), going to delete the session :: " ++ jError.Message))
      else
        match resp.accts with
        | .error err => (a, some ("decoding characters: " ++ err))
        | .ok accts =>
          if accts.length = 0 then
            (a, some "empty character list, go make one")
          else
            ({ a with Characters := accts }, none)

/-! ## Token refresh (`oauth.go`) -/

/-- How a Go call ends: it returns, or it panics with a run-time error. -/
inductive Outcome (α : Type) where
  | returned (v : α)
  | panicked (msg : String)
  deriving DecidableEq, Repr

/-- Sequencing of two calls: the second runs on what the first returned. -/
def Outcome.andThen {α β : Type} (o : Outcome α) (f : α → Outcome β) : Outcome β :=
  match o with
  | .returned v => f v
  | .panicked msg => .panicked msg

/-- The type assertion `v.(string)` on an `interface{}` value. -/
def assertString (v : Option GoValue) : Outcome String :=
  match v with
  | some (.str s) => .returned s
  | some (.other typeName) =>
    .panicked ("interface conversion: interface {} is " ++ typeName ++ ", not string")
  | none => .panicked "interface conversion: interface {} is nil, not string"

/-- Method `JagexAccountAuth.Refresh`: `tokenSource t` is the result of
`cfg.TokenSource(ctx, &t).Token()`, the token source of the OAuth2 library started from the
stored token `t`. -/
def Refresh (tokenSource : Token → Except String Token) (a : JagexAccountAuth) :
    Outcome (JagexAccountAuth × Option String) :=
  let before := a.Token.AccessToken
  match tokenSource a.Token with
  | .error err => .returned (a, some ("refresh: " ++ err))
  | .ok token =>
    let after := token.AccessToken
    let idToken : Outcome String :=
      if before ≠ after then assertString (token.Extra "id_token") else .returned a.IDToken
    idToken.andThen fun idToken =>
      .returned ({ a with Token := token, IDToken := idToken }, none)

/-! ## Consent callback listener (`api.go`, the handler inside `AuthConsent`) -/

/-- Go's `unicode.IsSpace`. -/
def isSpace (c : Char) : Bool :=
  c = '\t' || c = '\n' || c = '\x0b' || c = '\x0c' || c = '\r' || c = ' ' ||
  c.toNat = 0x85 || c.toNat = 0xA0 || c.toNat = 0x1680 ||
  (0x2000 ≤ c.toNat && c.toNat ≤ 0x200A) ||
  c.toNat = 0x2028 || c.toNat = 0x2029 || c.toNat = 0x202F || c.toNat = 0x205F ||
  c.toNat = 0x3000

/-- Go's `strings.TrimSpace`: the string without its leading and trailing white space. -/
def TrimSpace (s : String) : String :=
  String.mk ((s.toList.dropWhile isSpace).reverse.dropWhile isSpace).reverse

/-- Go's `url.Values` as the decoded `(key, value)` pairs in the order of the query. -/
abbrev Values := List (String × String)

/-- Method `Values.Get`: the first value stored under `key`, the empty string when there is none. -/
def Values.Get (v : Values) (key : String) : String :=
  (v.lookup key).getD ""

/-- The URL of a callback request: the raw query string and what `r.URL.Query()` parses out
of it. -/
structure URL where
  RawQuery : String
  Query : Values
  deriving DecidableEq, Repr

/-- The part of `http.Request` the handler reads. -/
structure Request where
  URL : URL
  deriving DecidableEq, Repr

/-- The cause recorded by a cancelled context: `context.Canceled` when `cancel(nil)` was called,
otherwise the error handed to `cancel`. -/
inductive Cause where
  | Canceled
  | err (msg : String)
  deriving DecidableEq, Repr

/-- The `cancel` function of `context.WithCancelCause` on the state of `srvCtx` (`none` while
the context is not done): the first call closes `Done` and records the cause, later calls do
nothing. -/
def cancel (srvCtx : Option Cause) (cause : Option String) : Option Cause :=
  match srvCtx with
  | some c => some c
  | none =>
    match cause with
    | none => some .Canceled
    | some e => some (.err e)

/-- What the handler closure shares with the rest of the program: the credential record `a`
it captured and the state of `srvCtx`, whose `Done` channel is the completion signal. -/
structure Listener where
  a : JagexAccountAuth
  srvCtx : Option Cause
  deriving DecidableEq, Repr

/-- The description the handler composes from `error_description` and `error_uri`: the
`if`/`else if` of `api.go` lines 137-141, whose result is the new `errorDescription`. -/
def combineDescription (errorDescription errorURI : String) : String :=
  if errorDescription = "" ∧ errorURI ≠ "" then
    "error_uri: " ++ errorURI
  else if errorDescription ≠ "" ∧ errorURI ≠ "" then
    errorDescription ++ ", error_uri: " ++ errorURI
  else
    errorDescription

set_option linter.unusedVariables false in
/-- The `http.HandlerFunc` of `AuthConsent`, one request at a time: the state after the
request and the bytes written to the response.  `callbackFE` is the embedded `auth.html`;
`errorf format` is the message of `fmt.Errorf(format)` called without operands (the format
itself when it has no percent sign). -/
def handler (callbackFE : String) (errorf : String → String) (l : Listener) (r : Request) :
    Listener × String :=
  if r.URL.RawQuery = "" then
    (l, callbackFE)
  else
    let errorMsg := r.URL.Query.Get "error"
    let errorDescription := r.URL.Query.Get "error_description"
    let errorURI := r.URL.Query.Get "error_uri"
    if errorMsg ≠ "" then
      -- Combine the errors into a single string if either is provided.
      let errorDescription := combineDescription errorDescription errorURI
      let errorMsg := "Encountered error in oidc process: " ++ errorMsg
      let err := errorf errorMsg
      ({ l with srvCtx := cancel l.srvCtx (some err) }, errorMsg)
    else
      let newIDToken := TrimSpace (r.URL.Query.Get "id_token")
      ({ a := { l.a with GameIDToken := newIDToken }, srvCtx := cancel l.srvCtx none }, "")

/-- Go's `fmt.Errorf` without operands on a format that has no percent sign. -/
def plainErrorf (format : String) : String := format

/-- The listener over time: the requests the HTTP server hands to the handler, one after the
other, each on the state the previous one left. -/
def serve (callbackFE : String) (errorf : String → String) (l : Listener)
    (requests : List Request) : Listener :=
  requests.foldl (fun l r => (handler callbackFE errorf l r).1) l

/-! ## Authorization-code exchange (`oauth.go`, `AuthenticateJagexAccount`) -/

/-- The pieces of `cs` between the occurrences of `sep`; a list without `sep` is one piece. -/
def splitChars (sep : Char) : List Char → List (List Char)
  | [] => [[]]
  | c :: cs =>
    if c = sep then
      [] :: splitChars sep cs
    else
      match splitChars sep cs with
      | [] => [[c]]
      | piece :: pieces => (c :: piece) :: pieces

/-- Go's `strings.Split(s, sep)` for a separator of one character. -/
def Split (s : String) (sep : Char) : List String :=
  (splitChars sep s.toList).map String.mk

/-- Go's `strings.HasPrefix`. -/
def HasPrefix (s pre : String) : Bool :=
  pre.toList.isPrefixOf s.toList

/-- Go's `strings.TrimPrefix`. -/
def TrimPrefix (s pre : String) : String :=
  if HasPrefix s pre then String.mk (s.toList.drop pre.toList.length) else s

/-- The index expression `parts[i]` on a slice: a run-time panic when `i` is out of range. -/
def index (parts : List String) (i : Nat) : Outcome String :=
  match parts.get? i with
  | some v => .returned v
  | none =>
    .panicked ("runtime error: index out of range [" ++ toString i ++ "] with length " ++
      toString parts.length)

/-- The three values the parsing loop of `AuthenticateJagexAccount` fills in. -/
structure ParsedCode where
  code : String
  state : String
  intent : String
  deriving DecidableEq, Repr

/-- One turn of the loop `for _, item := range list` of `AuthenticateJagexAccount`. -/
def parseItem (acc : ParsedCode) (item : String) : Outcome ParsedCode :=
  let parts := Split item '='
  (index parts 0).andThen fun key =>
    if key = "code" then
      (index parts 1).andThen fun v => .returned { acc with code := v }
    else if key = "state" then
      (index parts 1).andThen fun v => .returned { acc with state := v }
    else if key = "intent" then
      (index parts 1).andThen fun v => .returned { acc with intent := v }
    else
      .returned acc

/-- The loop `for _, item := range list` of `AuthenticateJagexAccount`. -/
def parseItems (acc : ParsedCode) : List String → Outcome ParsedCode
  | [] => .returned acc
  | item :: list => (parseItem acc item).andThen fun acc => parseItems acc list

/-- Function `AuthenticateJagexAccount`: `input` is what the prompt returns (the pasted string
or the prompt's error) and `exchange code` is the result of `cfg.Exchange(ctx, code, ...)`.
A returned `error` is `Except.error`, a returned record is `Except.ok`. -/
def AuthenticateJagexAccount (input : Except String String)
    (exchange : String → Except String Token) : Outcome (Except String JagexAccountAuth) :=
  match input with
  | .error err => .returned (.error ("input: " ++ err))
  | .ok jagexCode =>
    if ! HasPrefix jagexCode "jagex:" then
      .returned (.error "invalid code, must start with 'jagex:'")
    else
      let jagexCode := TrimPrefix jagexCode "jagex:"
      let list := Split jagexCode ','
      (parseItems { code := "", state := "", intent := "" } list).andThen fun parsed =>
        match exchange parsed.code with
        | .error err => .returned (.error ("exchange: " ++ err))
        | .ok token =>
          (assertString (token.Extra "id_token")).andThen fun idToken =>
            .returned (.ok { Token := token, IDToken := idToken, GameIDToken := "",
                             Session := "", Characters := [] })

/-! ## Account lifecycle orchestrator (`cmd/auth.go`, the consent and session stages) -/

/-- Method `JagexAccountAuth.AuthConsent` as its caller sees it: `authURL` is the result of
`url.Parse(cfg.Endpoint.AuthURL)`; on success the listener is started on the record `a`, with
`srvCtx` not done, and its `Done` channel is returned. -/
def AuthConsent (authURL : Except String String) (a : JagexAccountAuth) :
    Except String (String × Listener) :=
  match authURL with
  | .error err => .error ("parsing auth url: " ++ err)
  | .ok u => .ok (u, { a := a, srvCtx := none })

/-- What the surroundings supply to the consent and session stages of one run. -/
structure Env where
  /-- The embedded landing document. -/
  callbackFE : String
  /-- The message of `fmt.Errorf(format)` called without operands. -/
  errorf : String → String
  /-- The result of `url.Parse(cfg.Endpoint.AuthURL)`. -/
  authURL : Except String String
  /-- The callback requests the listener handles while the orchestrator waits. -/
  requests : List Request
  /-- Whether the outer context `ctx` is cancelled while the orchestrator waits. -/
  ctxDone : Bool
  /-- The result of `cli.Do(req)` inside `Sessions`. -/
  sessionsSent : Except String Response
  /-- The result of `cli.Do(req)` inside `Accounts`. -/
  accountsSent : Except String Response

/-- Where a run stands when it leaves the consent and session stages: the record, the methods
of the record that were invoked, in order, and the error the handler returns (`none` when the
run goes on to the character selection). -/
structure StageResult where
  acct : JagexAccountAuth
  calls : List String
  err : Option String
  deriving DecidableEq, Repr

/-- Lines 113-152 of the `Handler` in `Root.Auth`: the consent stage with its `select`, then
`Sessions` and `Accounts`.  The result is `none` when the `select` never returns: no request
fires the completion signal and the outer context is never cancelled. -/
def authStages (env : Env) (acct : JagexAccountAuth) : Option StageResult :=
  let consent : Option (Except String (JagexAccountAuth × List String)) :=
    if acct.GameIDToken = "" ∧ acct.Session = "" then
      -- We need to upgrade the consent
      match AuthConsent env.authURL acct with
      | .error err => some (.error ("getting auth consent: " ++ err))
      | .ok (_, l) =>
        let l := serve env.callbackFE env.errorf l env.requests
        -- select: case <-done, case <-ctx.Done()
        if l.srvCtx.isSome ∨ env.ctxDone then some (.ok (l.a, ["AuthConsent"])) else none
    else
      some (.ok (acct, []))
  match consent with
  | none => none
  | some (.error err) => some { acct := acct, calls := ["AuthConsent"], err := some err }
  | some (.ok (acct, calls)) =>
    let sessions : JagexAccountAuth × List String × Option String :=
      if acct.Session = "" then
        let r := Sessions acct env.sessionsSent
        (r.1, calls ++ ["Sessions"], r.2)
      else
        (acct, calls, none)
    match sessions with
    | (acct, calls, some err) =>
      some { acct := acct, calls := calls, err := some ("getting sessions: " ++ err) }
    | (acct, calls, none) =>
      -- Make sure the session is still valid
      let r := Accounts acct env.accountsSent
      match r.2 with
      | some err =>
        some { acct := r.1, calls := calls ++ ["Accounts"],
               err := some ("getting sessions: " ++ err) }
      | none => some { acct := r.1, calls := calls ++ ["Accounts"], err := none }

/-! ## Sample data -/

/-- A bearer-token set used in the examples. -/
def sampleToken : Token :=
  { AccessToken := "at-1", TokenType := "bearer", RefreshToken := "rt-1", Expiry := 0,
    raw := [("id_token", .str "idt-1")] }

/-- A credential record waiting for session negotiation. -/
def sampleAccount : JagexAccountAuth :=
  { Token := sampleToken, IDToken := "idt-1", GameIDToken := "game-idt", Session := "",
    Characters := [] }

/-- The zero value of `jagexError`. -/
def noError : jagexError :=
  { TraceID := "", SpanID := "", Status := 0, Code := "", Message := "", ID := "" }

/-- A 200 response to the session call with session id `sid`. -/
def sessionOK (sid : String) : Response :=
  { StatusCode := 200, jError := noError, session := .ok ⟨sid⟩,
    accts := .error "json: cannot unmarshal object into Go value of type []auth.JagexCharacter" }

/-- A response with status `status` and a structured error body. -/
def errorResponse (status : Int) (code message : String) : Response :=
  { StatusCode := status,
    jError := { noError with Status := status, Code := code, Message := message },
    session := .ok ⟨""⟩,
    accts := .error "json: cannot unmarshal object into Go value of type []auth.JagexCharacter" }

/-- A credential record with a negotiated session. -/
def sessionAccount : JagexAccountAuth :=
  { sampleAccount with GameIDToken := "", Session := "sess-1" }

/-- A 200 response to the listing call. -/
def acctsOK (accts : List JagexCharacter) : Response :=
  { StatusCode := 200, jError := noError,
    session := .error "json: cannot unmarshal array into Go value of type auth.sessionResponse",
    accts := .ok accts }

/-- Two characters. -/
def sampleCharacters : List JagexCharacter :=
  [⟨"acc-1", "Zezima", "hash-1"⟩, ⟨"acc-2", "Durial321", "hash-2"⟩]

/-- A token source that hands back the stored token (the stored token is still valid). -/
def reuseStored (t : Token) : Except String Token := .ok t

/-- A token source that has refreshed: a new access token with a new identity assertion. -/
def refreshed (t : Token) : Except String Token :=
  .ok { t with AccessToken := "at-2", raw := [("id_token", .str "idt-2")] }

/-- A token source whose refresh request failed. -/
def refreshFailed (_ : Token) : Except String Token := .error "oauth2: cannot fetch token"

/-- A callback request from its raw query and the parsed pairs. -/
def callback (rawQuery : String) (query : Values) : Request :=
  { URL := { RawQuery := rawQuery, Query := query } }

/-- A listener that has just been started for `sampleAccount`-like records. -/
def freshListener : Listener :=
  { a := { sampleAccount with GameIDToken := "" }, srvCtx := none }

/-- A record that enters the consent stage: no game ID token and no session. -/
def consentAccount : JagexAccountAuth :=
  { sampleAccount with GameIDToken := "", Session := "" }

/-- A consent callback that reports an error. -/
def deniedCallback : Request :=
  callback "error=access_denied" [("error", "access_denied")]

/-- A run whose consent callback reports an error, after which the session endpoint answers
the empty game ID token with status 400. -/
def deniedEnv : Env :=
  { callbackFE := "<html>please wait</html>", errorf := plainErrorf,
    authURL := .ok "https://account.jagex.com/oauth2/auth?prompt=consent",
    requests := [deniedCallback], ctxDone := false,
    sessionsSent := .ok (errorResponse 400 "INVALID_TOKEN" "missing idToken"),
    accountsSent := .ok (acctsOK sampleCharacters) }

/-- A run whose consent succeeds, whose session is negotiated and whose listing has two
characters. -/
def grantedEnv : Env :=
  { deniedEnv with
    requests := [callback "" [], callback "id_token=abc123" [("id_token", "abc123")]],
    sessionsSent := .ok (sessionOK "sess-1") }

/-- A token source that has refreshed to a token without an identity assertion. -/
def refreshedWithoutIDToken (t : Token) : Except String Token :=
  .ok { t with AccessToken := "at-2", raw := [] }

/-- A code exchange that succeeds with a token without an identity assertion. -/
def exchangeWithoutIDToken (_ : String) : Except String Token :=
  .ok { sampleToken with raw := [("scope", .str "openid offline")] }

/-- A code exchange that succeeds with a token carrying an identity assertion. -/
def exchangeOK (code : String) : Except String Token :=
  if code = "" then .error "oauth2: cannot fetch token: 400 Bad Request" else .ok sampleToken

/-! ## Game session negotiation: properties -/

/-- C1: whenever `Sessions` returns success, which happens exactly on a status 200 whose body
decodes to a non-empty `sessionId`, and whenever it fails on a non-200 response whose decoded
error code is `ID_TOKEN_ALREADY_USED`, `GameIDToken` is the empty string afterwards; on
success `Session` is the returned `sessionId`. -/
theorem Sessions_success_or_already_used_clears_game_id_token
    (a : JagexAccountAuth) (resp : Response) :
    (∀ s : sessionResponse, resp.StatusCode = 200 → resp.session = .ok s → s.SessionID ≠ "" →
      Sessions a (.ok resp) = ({ a with GameIDToken := "", Session := s.SessionID }, none)) ∧
    ((Sessions a (.ok resp)).2 = none →
      resp.StatusCode = 200 ∧ resp.session = .ok ⟨(Sessions a (.ok resp)).1.Session⟩ ∧
      (Sessions a (.ok resp)).1.Session ≠ "" ∧ (Sessions a (.ok resp)).1.GameIDToken = "") ∧
    (resp.StatusCode ≠ 200 → resp.jError.Code = "ID_TOKEN_ALREADY_USED" →
      (Sessions a (.ok resp)).1.GameIDToken = "" ∧
      (Sessions a (.ok resp)).2 =
        some ("fetch session: " ++ ("status code: " ++ toString resp.StatusCode))) := by
  refine ⟨?_, ?_, ?_⟩
  · intro s h200 hs hne
    simp [Sessions, StatusOK, h200, hs, hne]
  · intro h
    unfold Sessions at h ⊢
    simp only [StatusOK] at h ⊢
    by_cases h200 : resp.StatusCode = 200
    · cases hs : resp.session with
      | error e => simp [h200, hs] at h
      | ok s =>
        by_cases hne : s.SessionID = ""
        · simp [h200, hs, hne] at h
        · simp [h200, hne]
    · simp [h200] at h
  · intro h200 hcode
    simp [Sessions, StatusOK, h200, hcode]

/-- Witness for C1 on a successful response and on an already-used failure. -/
theorem Sessions_success_or_already_used_clears_game_id_token_witness :
    Sessions sampleAccount (.ok (sessionOK "sess-1")) =
      ({ sampleAccount with GameIDToken := "", Session := "sess-1" }, none) ∧
    (Sessions sampleAccount
      (.ok (errorResponse 400 "ID_TOKEN_ALREADY_USED" "used"))).1.GameIDToken = "" :=
  ⟨(Sessions_success_or_already_used_clears_game_id_token sampleAccount
      (sessionOK "sess-1")).1 ⟨"sess-1"⟩ rfl rfl (by decide),
   ((Sessions_success_or_already_used_clears_game_id_token sampleAccount
      (errorResponse 400 "ID_TOKEN_ALREADY_USED" "used")).2.2 (by decide) rfl).1⟩

/-- C2, as stated, fails: after a status 500 response whose error code is not
`ID_TOKEN_ALREADY_USED`, `Sessions` returns an error and `GameIDToken` still holds the token
that was sent. -/
theorem Sessions_other_failure_keeps_game_id_token :
    (errorResponse 500 "INTERNAL_ERROR" "boom").StatusCode ≠ 200 ∧
    Sessions sampleAccount (.ok (errorResponse 500 "INTERNAL_ERROR" "boom")) =
      (sampleAccount, some "fetch session: status code: 500") ∧
    (Sessions sampleAccount
      (.ok (errorResponse 500 "INTERNAL_ERROR" "boom"))).1.GameIDToken = "game-idt" ∧
    ¬ (∀ (a : JagexAccountAuth) (resp : Response), resp.StatusCode ≠ 200 →
        (Sessions a (.ok resp)).1.GameIDToken = "") := by
  refine ⟨by decide, by decide, by decide, ?_⟩
  intro h
  exact absurd (h sampleAccount (errorResponse 500 "INTERNAL_ERROR" "boom") (by decide))
    (by decide)

/-- C2, amended: after a response was received, `GameIDToken` is empty when the status is 200
(whether or not the body then yields a session id) or when the decoded error code is
`ID_TOKEN_ALREADY_USED`; after a non-200 response with any other error code `Sessions` returns
an error and the whole record, `GameIDToken` included, is what it was. -/
theorem Sessions_game_id_token_after_response (a : JagexAccountAuth) (resp : Response) :
    (resp.StatusCode = 200 ∨ resp.jError.Code = "ID_TOKEN_ALREADY_USED" →
      (Sessions a (.ok resp)).1.GameIDToken = "") ∧
    (resp.StatusCode ≠ 200 → resp.jError.Code ≠ "ID_TOKEN_ALREADY_USED" →
      (Sessions a (.ok resp)).1 = a ∧ (Sessions a (.ok resp)).2 ≠ none) := by
  refine ⟨?_, ?_⟩
  · intro h
    unfold Sessions
    simp only [StatusOK]
    by_cases h200 : resp.StatusCode = 200
    · cases hs : resp.session with
      | error e => simp [h200]
      | ok s => by_cases hne : s.SessionID = "" <;> simp [h200, hne]
    · have hcode : resp.jError.Code = "ID_TOKEN_ALREADY_USED" := h.resolve_left h200
      simp [h200, hcode]
  · intro h200 hcode
    simp [Sessions, StatusOK, h200, hcode]

/-- Witness for the amended C2: a 200 response without a session id, and a 503 failure. -/
theorem Sessions_game_id_token_after_response_witness :
    (Sessions sampleAccount (.ok (sessionOK ""))).1.GameIDToken = "" ∧
    (Sessions sampleAccount (.ok (errorResponse 503 "UNAVAILABLE" "later"))).1
      = sampleAccount :=
  ⟨(Sessions_game_id_token_after_response sampleAccount (sessionOK "")).1 (Or.inl rfl),
   ((Sessions_game_id_token_after_response sampleAccount
      (errorResponse 503 "UNAVAILABLE" "later")).2 (by decide) (by decide)).1⟩

/-- C3: `Sessions` changes `Session` only on a status 200 whose body decodes to a non-empty
`sessionId`, and then `Session` is that id and the call succeeds; on a transport error, a
non-200 status, an undecodable body or an empty `sessionId` it returns an error and `Session`
keeps its prior value. -/
theorem Sessions_stores_only_confirmed_session (a : JagexAccountAuth)
    (sent : Except String Response) :
    (∀ (resp : Response) (s : sessionResponse), sent = .ok resp → resp.StatusCode = 200 →
      resp.session = .ok s → s.SessionID ≠ "" →
      (Sessions a sent).2 = none ∧ (Sessions a sent).1.Session = s.SessionID) ∧
    ((∃ e, sent = .error e) ∨
      (∃ resp, sent = .ok resp ∧
        (resp.StatusCode ≠ 200 ∨ (∃ e, resp.session = .error e) ∨
          (∃ s, resp.session = .ok s ∧ s.SessionID = ""))) →
      (Sessions a sent).2 ≠ none ∧ (Sessions a sent).1.Session = a.Session) ∧
    ((Sessions a sent).1.Session ≠ a.Session →
      ∃ resp s, sent = .ok resp ∧ resp.StatusCode = 200 ∧ resp.session = .ok s ∧
        s.SessionID ≠ "" ∧ (Sessions a sent).1.Session = s.SessionID) := by
  refine ⟨?_, ?_, ?_⟩
  · intro resp s hsent h200 hs hne
    subst hsent
    simp [Sessions, StatusOK, h200, hs, hne]
  · rintro (⟨e, rfl⟩ | ⟨resp, rfl, h⟩)
    · simp [Sessions]
    · unfold Sessions
      simp only [StatusOK]
      by_cases h200 : resp.StatusCode = 200
      · rcases h with h | ⟨e, he⟩ | ⟨s, hs, hempty⟩
        · exact absurd h200 h
        · simp [h200, he]
        · simp [h200, hs, hempty]
      · by_cases hcode : resp.jError.Code = "ID_TOKEN_ALREADY_USED" <;> simp [h200, hcode]
  · intro hchg
    cases sent with
    | error e => simp [Sessions] at hchg
    | ok resp =>
      unfold Sessions at hchg ⊢
      simp only [StatusOK] at hchg ⊢
      by_cases h200 : resp.StatusCode = 200
      · cases hs : resp.session with
        | error e => simp [h200, hs] at hchg
        | ok s =>
          by_cases hne : s.SessionID = ""
          · simp [h200, hs, hne] at hchg
          · exact ⟨resp, s, rfl, h200, hs, hne, by simp [h200, hne]⟩
      · by_cases hcode : resp.jError.Code = "ID_TOKEN_ALREADY_USED" <;>
          simp [h200, hcode] at hchg

/-- Witness for C3: a confirmed session id is stored, an empty one is not. -/
theorem Sessions_stores_only_confirmed_session_witness :
    (Sessions sampleAccount (.ok (sessionOK "sess-1"))).1.Session = "sess-1" ∧
    (Sessions sessionAccount (.ok (sessionOK ""))).1.Session = "sess-1" :=
  ⟨((Sessions_stores_only_confirmed_session sampleAccount (.ok (sessionOK "sess-1"))).1
      (sessionOK "sess-1") ⟨"sess-1"⟩ rfl rfl rfl (by decide)).2,
   ((Sessions_stores_only_confirmed_session sessionAccount (.ok (sessionOK ""))).2.1
      (Or.inr ⟨sessionOK "", rfl, Or.inr (Or.inr ⟨⟨""⟩, rfl, rfl⟩)⟩)).2⟩

/-! ## Character listing: properties -/

/-- C4: with a non-empty `Session`, a listing response whose status is not 200 makes
`Accounts` return an error, with `Session` cleared and `Characters` (and every other field)
unchanged; for status 401 the error is the reauthenticate error, for any other status the
message carries the status code and the message decoded from the structured error body. -/
theorem Accounts_non_ok_status_clears_session (a : JagexAccountAuth) (resp : Response)
    (hsess : a.Session ≠ "") (hstatus : resp.StatusCode ≠ 200) :
    (Accounts a (.ok resp)).1 = { a with Session := "" } ∧
    (Accounts a (.ok resp)).1.Session = "" ∧
    (Accounts a (.ok resp)).1.Characters = a.Characters ∧
    (Accounts a (.ok resp)).2 ≠ none ∧
    (resp.StatusCode = 401 → (Accounts a (.ok resp)).2 =
      some "session token invalid, deleting, and you must reauthenticate") ∧
    (resp.StatusCode ≠ 401 → (Accounts a (.ok resp)).2 =
      some ("fetching characters failed (status " ++ toString resp.StatusCode ++
        "), going to delete the session :: " ++ resp.jError.Message)) := by
  unfold Accounts
  simp only [StatusOK, StatusUnauthorized]
  by_cases h401 : resp.StatusCode = 401
  · simp [hsess, h401]
  · simp [hsess, h401, hstatus]

/-- Witness for C4: a 401 and a 500 on a record that holds a session. -/
theorem Accounts_non_ok_status_clears_session_witness :
    (Accounts sessionAccount (.ok (errorResponse 401 "" ""))).2 =
      some "session token invalid, deleting, and you must reauthenticate" ∧
    (Accounts sessionAccount (.ok (errorResponse 500 "INTERNAL_ERROR" "boom"))).2 =
      some "fetching characters failed (status 500), going to delete the session :: boom" ∧
    (Accounts sessionAccount (.ok (errorResponse 500 "INTERNAL_ERROR" "boom"))).1.Session
      = "" :=
  ⟨(Accounts_non_ok_status_clears_session sessionAccount (errorResponse 401 "" "")
      (by decide) (by decide)).2.2.2.2.1 rfl,
   (Accounts_non_ok_status_clears_session sessionAccount
      (errorResponse 500 "INTERNAL_ERROR" "boom") (by decide) (by decide)).2.2.2.2.2
      (by decide),
   (Accounts_non_ok_status_clears_session sessionAccount
      (errorResponse 500 "INTERNAL_ERROR" "boom") (by decide) (by decide)).2.1⟩

/-- C5: `Accounts` returns success exactly when `Session` is non-empty, the response status
is 200 and the body decodes to a non-empty list, and then `Characters` is that list, in the
same order, with every other field kept; when `Session` is empty, or the status is 200 and the
body does not decode or decodes to the empty list, it returns an error and the record,
`Characters` and `Session` included, is unchanged. -/
theorem Accounts_populates_only_from_non_empty_listing (a : JagexAccountAuth)
    (sent : Except String Response) :
    ((Accounts a sent).2 = none ↔
      a.Session ≠ "" ∧ ∃ resp accts, sent = .ok resp ∧ resp.StatusCode = 200 ∧
        resp.accts = .ok accts ∧ accts ≠ []) ∧
    (∀ resp accts, a.Session ≠ "" → sent = .ok resp → resp.StatusCode = 200 →
      resp.accts = .ok accts → accts ≠ [] →
      Accounts a sent = ({ a with Characters := accts }, none)) ∧
    (a.Session = "" ∨
      (∃ resp, sent = .ok resp ∧ resp.StatusCode = 200 ∧
        (resp.accts = .ok [] ∨ ∃ e, resp.accts = .error e)) →
      (Accounts a sent).2 ≠ none ∧ (Accounts a sent).1 = a) := by
  have hok : ∀ resp accts, a.Session ≠ "" → sent = .ok resp → resp.StatusCode = 200 →
      resp.accts = .ok accts → accts ≠ [] →
      Accounts a sent = ({ a with Characters := accts }, none) := by
    intro resp accts hsess hsent h200 haccts hne
    subst hsent
    simp [Accounts, StatusOK, StatusUnauthorized, hsess, h200, haccts, hne]
  refine ⟨⟨?_, ?_⟩, hok, ?_⟩
  · intro h
    unfold Accounts at h
    simp only [StatusOK, StatusUnauthorized] at h
    by_cases hsess : a.Session = ""
    · simp [hsess] at h
    · refine ⟨hsess, ?_⟩
      cases sent with
      | error e => simp [hsess] at h
      | ok resp =>
        by_cases h401 : resp.StatusCode = 401
        · simp [hsess, h401] at h
        · by_cases h200 : resp.StatusCode = 200
          · cases haccts : resp.accts with
            | error e => simp [hsess, h200, haccts] at h
            | ok accts =>
              by_cases hne : accts = []
              · simp [hsess, h200, haccts, hne] at h
              · exact ⟨resp, accts, rfl, h200, haccts, hne⟩
          · simp [hsess, h401, h200] at h
  · rintro ⟨hsess, resp, accts, hsent, h200, haccts, hne⟩
    rw [hok resp accts hsess hsent h200 haccts hne]
  · rintro (hsess | ⟨resp, rfl, h200, haccts | ⟨e, he⟩⟩)
    · simp [Accounts, hsess]
    · by_cases hsess : a.Session = "" <;>
        simp [Accounts, StatusOK, StatusUnauthorized, hsess, h200, haccts]
    · by_cases hsess : a.Session = "" <;>
        simp [Accounts, StatusOK, StatusUnauthorized, hsess, h200, he]

/-- Witness for C5: a listing of two characters is stored in order, an empty listing is an
error that changes nothing. -/
theorem Accounts_populates_only_from_non_empty_listing_witness :
    Accounts sessionAccount (.ok (acctsOK sampleCharacters)) =
      ({ sessionAccount with Characters := sampleCharacters }, none) ∧
    (Accounts sessionAccount (.ok (acctsOK []))).2 ≠ none ∧
    (Accounts sessionAccount (.ok (acctsOK []))).1 = sessionAccount :=
  ⟨(Accounts_populates_only_from_non_empty_listing sessionAccount
      (.ok (acctsOK sampleCharacters))).2.1 (acctsOK sampleCharacters) sampleCharacters
      (by decide) rfl rfl rfl (by decide),
   (Accounts_populates_only_from_non_empty_listing sessionAccount
      (.ok (acctsOK []))).2.2 (Or.inr ⟨acctsOK [], rfl, rfl, Or.inl rfl⟩)⟩

/-! ## Token refresh: properties -/

/-- C6: when the token source returns a token whose access token equals the stored one,
`Refresh` succeeds with `IDToken` unchanged; when the access token differs and the returned
token carries a string `id_token` extra field, `Refresh` succeeds with `IDToken` set to that
value; in both cases `Token` becomes the returned token and no other field changes.  Every
successful `Refresh` is one of these two, and on a token-source error `Refresh` returns the
wrapped error with the record unchanged. -/
theorem Refresh_id_token_follows_access_token (tokenSource : Token → Except String Token)
    (a : JagexAccountAuth) :
    (∀ token, tokenSource a.Token = .ok token → token.AccessToken = a.Token.AccessToken →
      Refresh tokenSource a = .returned ({ a with Token := token }, none)) ∧
    (∀ token idToken, tokenSource a.Token = .ok token →
      token.AccessToken ≠ a.Token.AccessToken →
      token.Extra "id_token" = some (.str idToken) →
      Refresh tokenSource a = .returned ({ a with Token := token, IDToken := idToken }, none)) ∧
    (∀ a2, Refresh tokenSource a = .returned (a2, none) →
      tokenSource a.Token = .ok a2.Token ∧
      (a2.Token.AccessToken = a.Token.AccessToken → a2.IDToken = a.IDToken) ∧
      (a2.Token.AccessToken ≠ a.Token.AccessToken →
        a2.Token.Extra "id_token" = some (.str a2.IDToken)) ∧
      a2.GameIDToken = a.GameIDToken ∧ a2.Session = a.Session ∧
      a2.Characters = a.Characters) ∧
    (∀ e, tokenSource a.Token = .error e →
      Refresh tokenSource a = .returned (a, some ("refresh: " ++ e))) := by
  refine ⟨?_, ?_, ?_, ?_⟩
  · intro token hts hsame
    simp [Refresh, hts, hsame, Outcome.andThen]
  · intro token idToken hts hdiff hextra
    have hdiff2 : ¬ a.Token.AccessToken = token.AccessToken := fun h => hdiff h.symm
    simp [Refresh, hts, hdiff2, hextra, assertString, Outcome.andThen]
  · intro a2 h
    unfold Refresh at h
    cases hts : tokenSource a.Token with
    | error e => simp [hts] at h
    | ok token =>
      simp only [hts] at h
      by_cases hsame : a.Token.AccessToken = token.AccessToken
      · simp [hsame, Outcome.andThen] at h
        subst h
        simp [hsame]
      · cases hextra : token.Extra "id_token" with
        | none => simp [hsame, hextra, assertString, Outcome.andThen] at h
        | some v =>
          cases v with
          | str idt =>
            simp [hsame, hextra, assertString, Outcome.andThen] at h
            subst h
            simp [hextra]
            exact fun h2 => absurd h2.symm hsame
          | other typeName => simp [hsame, hextra, assertString, Outcome.andThen] at h
  · intro e hts
    simp [Refresh, hts]

/-- Witness for C6: an unchanged access token, a changed one, and a failed refresh. -/
theorem Refresh_id_token_follows_access_token_witness :
    Refresh reuseStored sampleAccount = .returned (sampleAccount, none) ∧
    Refresh refreshed sampleAccount =
      .returned ({ sampleAccount with
        Token := { sampleToken with AccessToken := "at-2", raw := [("id_token", .str "idt-2")] },
        IDToken := "idt-2" }, none) ∧
    Refresh refreshFailed sampleAccount =
      .returned (sampleAccount, some "refresh: oauth2: cannot fetch token") :=
  ⟨(Refresh_id_token_follows_access_token reuseStored sampleAccount).1
      sampleToken rfl rfl,
   (Refresh_id_token_follows_access_token refreshed sampleAccount).2.1
      { sampleToken with AccessToken := "at-2", raw := [("id_token", .str "idt-2")] } "idt-2"
      rfl (by decide) (by decide),
   (Refresh_id_token_follows_access_token refreshFailed sampleAccount).2.2.2
      "oauth2: cannot fetch token" rfl⟩

/-- C7: when the token source hands back the stored token (the bearer token is not expired),
`Refresh` succeeds and returns the record with every field unchanged, and running `Refresh`
again on the result gives the same outcome as running it once. -/
theorem Refresh_idempotent_on_unexpired_token (tokenSource : Token → Except String Token)
    (a : JagexAccountAuth) (hvalid : tokenSource a.Token = .ok a.Token) :
    Refresh tokenSource a = .returned (a, none) ∧
    (Refresh tokenSource a).andThen (fun r => Refresh tokenSource r.1) =
      Refresh tokenSource a := by
  have h1 : Refresh tokenSource a = .returned (a, none) := by
    simp [Refresh, hvalid, Outcome.andThen]
  refine ⟨h1, ?_⟩
  rw [h1]
  simp only [Outcome.andThen]
  exact h1

/-- Witness for C7 on the sample record. -/
theorem Refresh_idempotent_on_unexpired_token_witness :
    Refresh reuseStored sampleAccount = .returned (sampleAccount, none) ∧
    (Refresh reuseStored sampleAccount).andThen (fun r => Refresh reuseStored r.1) =
      Refresh reuseStored sampleAccount :=
  Refresh_idempotent_on_unexpired_token reuseStored sampleAccount rfl

/-! ## Consent callback listener: properties -/

/-- C8: on the callback `error=access_denied`, empty `error_description` and
`error_uri=https://x/y` the handler composes the description `error_uri: https://x/y` but
cancels the context with an error built from the `error` parameter alone: the cause, like the
response body, is `Encountered error in oidc process: access_denied` and does not contain the
composed description. -/
theorem handler_error_cause_omits_description :
    combineDescription "" "https://x/y" = "error_uri: https://x/y" ∧
    (∀ (callbackFE : String) (errorf : String → String),
      handler callbackFE errorf freshListener
        (callback "error=access_denied&error_description=&error_uri=https://x/y"
          [("error", "access_denied"), ("error_description", ""),
            ("error_uri", "https://x/y")]) =
      ({ freshListener with
          srvCtx := some (.err (errorf "Encountered error in oidc process: access_denied")) },
        "Encountered error in oidc process: access_denied")) ∧
    (handler "" plainErrorf freshListener
        (callback "error=access_denied&error_description=&error_uri=https://x/y"
          [("error", "access_denied"), ("error_description", ""),
            ("error_uri", "https://x/y")])).1.srvCtx =
      some (.err "Encountered error in oidc process: access_denied") ∧
    ¬ ("error_uri: https://x/y".toList <:+:
        "Encountered error in oidc process: access_denied".toList) := by
  refine ⟨by decide, ?_, by decide, by decide⟩
  intro callbackFE errorf
  rfl

/-- C9: a callback with a non-empty query whose `error` parameter is absent or empty makes the
handler store the white-space-trimmed `id_token` parameter in `GameIDToken`, touch no other
field, write nothing, and call `cancel(nil)`: on a listener that was not done yet the context
is done with no error as its cause.  Without an `id_token` parameter the stored value is the
empty string. -/
theorem handler_success_stores_trimmed_id_token (callbackFE : String)
    (errorf : String → String) (l : Listener) (r : Request)
    (hquery : r.URL.RawQuery ≠ "") (hnoerror : r.URL.Query.Get "error" = "") :
    handler callbackFE errorf l r =
      ({ a := { l.a with GameIDToken := TrimSpace (r.URL.Query.Get "id_token") },
         srvCtx := cancel l.srvCtx none }, "") ∧
    (l.srvCtx = none → (handler callbackFE errorf l r).1.srvCtx = some .Canceled) ∧
    (r.URL.Query.lookup "id_token" = none →
      (handler callbackFE errorf l r).1.a.GameIDToken = "") := by
  have h : handler callbackFE errorf l r =
      ({ a := { l.a with GameIDToken := TrimSpace (r.URL.Query.Get "id_token") },
         srvCtx := cancel l.srvCtx none }, "") := by
    simp [handler, hquery, hnoerror]
  refine ⟨h, ?_, ?_⟩
  · intro hfresh
    rw [h]
    simp [hfresh, cancel]
  · intro hnone
    rw [h]
    simp only [Values.Get, hnone]
    decide

/-- Witness for C9: `id_token=abc123`, a padded token, and a query with neither `error` nor
`id_token`. -/
theorem handler_success_stores_trimmed_id_token_witness :
    handler "<html></html>" plainErrorf freshListener
        (callback "id_token=abc123" [("id_token", "abc123")]) =
      ({ a := { freshListener.a with GameIDToken := "abc123" }, srvCtx := some .Canceled },
        "") ∧
    (handler "<html></html>" plainErrorf freshListener
        (callback "id_token=%20abc123%0A&code=c" [("id_token", " abc123\n"), ("code", "c")])
      ).1.a.GameIDToken = "abc123" ∧
    (handler "<html></html>" plainErrorf freshListener
        (callback "state=xyz" [("state", "xyz")])).1.a.GameIDToken = "" ∧
    (handler "<html></html>" plainErrorf freshListener
        (callback "state=xyz" [("state", "xyz")])).1.srvCtx = some .Canceled :=
  ⟨(handler_success_stores_trimmed_id_token "<html></html>" plainErrorf freshListener
      (callback "id_token=abc123" [("id_token", "abc123")]) (by decide) (by decide)).1.trans
      (by decide),
   (congrArg (fun p => p.1.a.GameIDToken)
      (handler_success_stores_trimmed_id_token "<html></html>" plainErrorf freshListener
        (callback "id_token=%20abc123%0A&code=c" [("id_token", " abc123\n"), ("code", "c")])
        (by decide) (by decide)).1).trans (by decide),
   (handler_success_stores_trimmed_id_token "<html></html>" plainErrorf freshListener
      (callback "state=xyz" [("state", "xyz")]) (by decide) (by decide)).2.2 (by decide),
   (handler_success_stores_trimmed_id_token "<html></html>" plainErrorf freshListener
      (callback "state=xyz" [("state", "xyz")]) (by decide) (by decide)).2.1 rfl⟩

/-- C10: on a callback with an empty raw query the handler writes exactly the static landing
document, does not call `cancel`, and leaves the credential record unchanged: the listener is
in the state it was in, so one that was not done is still not done. -/
theorem handler_bare_get_serves_landing_page (callbackFE : String)
    (errorf : String → String) (l : Listener) (r : Request) (hbare : r.URL.RawQuery = "") :
    handler callbackFE errorf l r = (l, callbackFE) ∧
    (handler callbackFE errorf l r).2 = callbackFE ∧
    (handler callbackFE errorf l r).1.srvCtx = l.srvCtx ∧
    (handler callbackFE errorf l r).1.a = l.a ∧
    (l.srvCtx = none → (handler callbackFE errorf l r).1.srvCtx = none) := by
  have h : handler callbackFE errorf l r = (l, callbackFE) := by
    simp [handler, hbare]
  rw [h]
  exact ⟨rfl, rfl, rfl, rfl, fun hfresh => hfresh⟩

/-- Witness for C10: the bare GET on a fresh listener. -/
theorem handler_bare_get_serves_landing_page_witness :
    handler "<html>please wait</html>" plainErrorf freshListener (callback "" []) =
      (freshListener, "<html>please wait</html>") :=
  (handler_bare_get_serves_landing_page "<html>please wait</html>" plainErrorf freshListener
    (callback "" []) rfl).1

/-! ## Consent callback listener over several requests: properties -/

/-- Cancelling a context that is already done keeps its cause. -/
theorem cancel_done (c : Cause) (cause : Option String) : cancel (some c) cause = some c := rfl

/-- The handler never changes the cause of a context that is already done. -/
theorem handler_keeps_done_cause (callbackFE : String) (errorf : String → String)
    (l : Listener) (r : Request) (c : Cause) (hdone : l.srvCtx = some c) :
    (handler callbackFE errorf l r).1.srvCtx = some c := by
  unfold handler
  by_cases hq : r.URL.RawQuery = ""
  · simp [hq, hdone]
  · by_cases he : r.URL.Query.Get "error" = "" <;> simp [hq, he, hdone, cancel_done]

/-- The handler changes no field of the record other than `GameIDToken`. -/
theorem handler_changes_only_game_id_token (callbackFE : String) (errorf : String → String)
    (l : Listener) (r : Request) :
    (handler callbackFE errorf l r).1.a =
      { l.a with GameIDToken := (handler callbackFE errorf l r).1.a.GameIDToken } := by
  unfold handler
  by_cases hq : r.URL.RawQuery = ""
  · simp [hq]
  · by_cases he : r.URL.Query.Get "error" = "" <;> simp [hq, he]

/-- A bare GET and an error callback leave the record as it is. -/
theorem handler_bare_or_error_keeps_record (callbackFE : String) (errorf : String → String)
    (l : Listener) (r : Request)
    (h : r.URL.RawQuery = "" ∨ r.URL.Query.Get "error" ≠ "") :
    (handler callbackFE errorf l r).1.a = l.a := by
  unfold handler
  by_cases hq : r.URL.RawQuery = ""
  · simp [hq]
  · have he : r.URL.Query.Get "error" ≠ "" := h.resolve_left hq
    simp [hq, he]

/-- A request with a non-empty query leaves the context done. -/
theorem handler_query_fires (callbackFE : String) (errorf : String → String)
    (l : Listener) (r : Request) (hq : r.URL.RawQuery ≠ "") :
    (handler callbackFE errorf l r).1.srvCtx ≠ none := by
  unfold handler
  by_cases he : r.URL.Query.Get "error" = "" <;>
    cases hctx : l.srvCtx <;> simp [hq, he, hctx, cancel]

/-- Serving any requests on a listener whose context is done keeps the cause. -/
theorem serve_keeps_done_cause (callbackFE : String) (errorf : String → String)
    (requests : List Request) :
    ∀ (l : Listener) (c : Cause), l.srvCtx = some c →
      (serve callbackFE errorf l requests).srvCtx = some c := by
  induction requests with
  | nil => intro l c h; simpa [serve] using h
  | cons r rs ih =>
    intro l c h
    have := ih (handler callbackFE errorf l r).1 c
      (handler_keeps_done_cause callbackFE errorf l r c h)
    simpa [serve] using this

/-- Serving any requests changes no field of the record other than `GameIDToken`. -/
theorem serve_changes_only_game_id_token (callbackFE : String) (errorf : String → String)
    (requests : List Request) :
    ∀ l : Listener, (serve callbackFE errorf l requests).a =
      { l.a with GameIDToken := (serve callbackFE errorf l requests).a.GameIDToken } := by
  induction requests with
  | nil => intro l; simp [serve]
  | cons r rs ih =>
    intro l
    have h1 := ih (handler callbackFE errorf l r).1
    have h2 := handler_changes_only_game_id_token callbackFE errorf l r
    have hs : serve callbackFE errorf l (r :: rs) =
        serve callbackFE errorf (handler callbackFE errorf l r).1 rs := by simp [serve]
    rw [hs, h1, h2]

/-- Serving bare GETs and error callbacks leaves the record as it is. -/
theorem serve_bare_or_error_keeps_record (callbackFE : String) (errorf : String → String)
    (requests : List Request) :
    ∀ l : Listener,
      (∀ r ∈ requests, r.URL.RawQuery = "" ∨ r.URL.Query.Get "error" ≠ "") →
      (serve callbackFE errorf l requests).a = l.a := by
  induction requests with
  | nil => intro l _; simp [serve]
  | cons r rs ih =>
    intro l h
    have h1 := ih (handler callbackFE errorf l r).1
      (fun r2 hr2 => h r2 (List.mem_cons_of_mem r hr2))
    have h2 := handler_bare_or_error_keeps_record callbackFE errorf l r
      (h r (List.mem_cons_self r rs))
    have hs : serve callbackFE errorf l (r :: rs) =
        serve callbackFE errorf (handler callbackFE errorf l r).1 rs := by simp [serve]
    rw [hs, h1, h2]

/-- C11: the handler does not stop at the first terminal request.  After the callback
`id_token=abc123` has fired the completion signal and stored `abc123`, a second callback
`id_token=other` that the listener still handles leaves the cause as it was but assigns
`GameIDToken` again, to `other`: the record is no longer what the first terminal request
left. -/
theorem serve_later_request_overwrites_game_id_token :
    handler "" plainErrorf freshListener (callback "id_token=abc123" [("id_token", "abc123")])
      = ({ a := { freshListener.a with GameIDToken := "abc123" }, srvCtx := some .Canceled },
          "") ∧
    serve "" plainErrorf
        { a := { freshListener.a with GameIDToken := "abc123" }, srvCtx := some .Canceled }
        [callback "id_token=other" [("id_token", "other")]]
      = { a := { freshListener.a with GameIDToken := "other" }, srvCtx := some .Canceled } ∧
    (serve "" plainErrorf
        (handler "" plainErrorf freshListener
          (callback "id_token=abc123" [("id_token", "abc123")])).1
        [callback "id_token=other" [("id_token", "other")]]).a ≠
      (handler "" plainErrorf freshListener
        (callback "id_token=abc123" [("id_token", "abc123")])).1.a := by
  refine ⟨by decide, by decide, by decide⟩

/-! ## Orchestrator, consent and session stages: properties -/

/-- C12: a run that enters the consent stage and whose listener terminates with the error of
an `error=access_denied` callback does not abort there: `Sessions` is invoked next, with the
empty game ID token, and the error the run returns is the one of `Sessions`, not the
listener's.  The same happens when the outer context is cancelled first.  In general, whenever
the consent stage is entered and its wait ends, `Sessions` is among the methods invoked,
whatever cause the listener recorded. -/
theorem authStages_invokes_Sessions_after_failed_consent :
    consentAccount.GameIDToken = "" ∧ consentAccount.Session = "" ∧
    (serve deniedEnv.callbackFE deniedEnv.errorf { a := consentAccount, srvCtx := none }
        deniedEnv.requests).srvCtx =
      some (.err "Encountered error in oidc process: access_denied") ∧
    authStages deniedEnv consentAccount =
      some { acct := consentAccount, calls := ["AuthConsent", "Sessions"],
             err := some "getting sessions: fetch session: status code: 400" } ∧
    authStages { deniedEnv with requests := [], ctxDone := true,
                                sessionsSent := .error "context canceled" } consentAccount =
      some { acct := consentAccount, calls := ["AuthConsent", "Sessions"],
             err := some "getting sessions: fetch rsn: context canceled" } ∧
    (∀ (env : Env) (u : String) (acct : JagexAccountAuth),
      (authStages { env with authURL := .ok u }
          { acct with GameIDToken := "", Session := "" }).all
        (fun run => decide ("Sessions" ∈ run.calls)) = true) := by
  refine ⟨rfl, rfl, by decide, by decide, by decide, ?_⟩
  intro env u acct
  have hsess : (serve env.callbackFE env.errorf
      { a := { acct with GameIDToken := "", Session := "" }, srvCtx := none }
      env.requests).a.Session = "" := by
    rw [serve_changes_only_game_id_token]
  unfold authStages
  simp only [AuthConsent, and_self, if_true]
  by_cases hwake : (serve env.callbackFE env.errorf
      { a := { acct with GameIDToken := "", Session := "" }, srvCtx := none }
      env.requests).srvCtx.isSome = true ∨ env.ctxDone = true
  · simp only [hwake, if_true, hsess]
    cases hs : (Sessions (serve env.callbackFE env.errorf
        { a := { acct with GameIDToken := "", Session := "" }, srvCtx := none }
        env.requests).a env.sessionsSent) with
    | mk a2 e2 =>
      cases e2 with
      | some e => simp [Option.all]
      | none =>
        simp only []
        cases ha : (Accounts a2 env.accountsSent).2 <;> simp [Option.all]
  · simp [hwake, Option.all]

/-! ## Authorization-code exchange: properties -/

/-- C13: when the code exchange succeeds with a token response that carries no `id_token`
extra field, `AuthenticateJagexAccount` does not return an error value: the unchecked type
assertion panics.  `Refresh` panics in the same way when the access token changed and the
refreshed token has no `id_token`. -/
theorem missing_id_token_panics :
    exchangeWithoutIDToken "abc" =
      .ok { sampleToken with raw := [("scope", .str "openid offline")] } ∧
    AuthenticateJagexAccount (.ok "jagex:code=abc,state=1,intent=social_auth")
        exchangeWithoutIDToken =
      .panicked "interface conversion: interface {} is nil, not string" ∧
    Refresh refreshedWithoutIDToken sampleAccount =
      .panicked "interface conversion: interface {} is nil, not string" := by
  refine ⟨rfl, rfl, rfl⟩

/-- C14: on the inputs `jagex:code` and `jagex:state` the parser of `AuthenticateJagexAccount`
reads `parts[1]` of a one-element slice and panics with an index out of range, whatever the
code exchange would do; an input whose recognised keys all carry a value is parsed and
exchanged. -/
theorem AuthenticateJagexAccount_key_without_value_panics :
    Split "code" '=' = ["code"] ∧
    (∀ exchange : String → Except String Token,
      AuthenticateJagexAccount (.ok "jagex:code") exchange =
        .panicked "runtime error: index out of range [1] with length 1") ∧
    (∀ exchange : String → Except String Token,
      AuthenticateJagexAccount (.ok "jagex:state") exchange =
        .panicked "runtime error: index out of range [1] with length 1") ∧
    AuthenticateJagexAccount (.ok "jagex:code=abc,state=1,intent=social_auth") exchangeOK =
      .returned (.ok { Token := sampleToken, IDToken := "idt-1", GameIDToken := "",
                       Session := "", Characters := [] }) ∧
    AuthenticateJagexAccount (.ok "code=abc") exchangeOK =
      .returned (.error "invalid code, must start with 'jagex:'") := by
  refine ⟨by decide, fun _ => rfl, fun _ => rfl, rfl, rfl⟩

end OsrsLauncher
